/-
Shallow embedding of the weather-etl-api repository (ETL portion) and
verification of the frozen specification claims against it.

Modelling conventions:
* Python values flowing through the ETL are modelled by the inductive
  type `Val` (None / numbers / strings / dicts / lists).  Numbers are
  rationals (`ℚ`), the standard exact abstraction of the numeric values
  involved; binary floating point rounding is not modelled.
* Python dicts are association lists in insertion order; updating an
  existing key overwrites in place, a new key is appended.
* Code that can raise is modelled in an `Except` monad; a bare
  `except:` handler corresponds to collapsing `Except` to its payload.
* Ambient effects are explicit parameters: the wall clock is a string
  (`nowIso`), the process local timezone is an integer offset in
  seconds (`tz`), the network and the database are oracle functions.
-/
import Mathlib

namespace WeatherEtl

attribute [local semireducible] Rat.add Rat.sub Rat.mul Rat.inv Rat.ofScientific

/-- A Python value as it occurs in the ETL payloads: `none_v` is Python
`None`, numbers are modelled as rationals, plus strings, dicts
(association lists in insertion order) and lists. -/

inductive Val where
  | none_v : Val
  | num : ℚ → Val
  | str : String → Val
  | dict : List (String × Val) → Val
  | list : List Val → Val

/-- A Python dict with string keys, in insertion order. -/

abbrev PyRec := List (String × Val)

/-- Lookup in a string-keyed association list (Python `d.get(k)`). -/

def assocGet? {α : Type} : List (String × α) → String → Option α
  | [], _ => none
  | (k', v) :: rest, k => if k' = k then some v else assocGet? rest k

/-- Python `d[k] = v` on an association list: overwrite in place if the
key exists, else append (dict insertion order). -/

def assocSet {α : Type} : List (String × α) → String → α → List (String × α)
  | [], k, v => [(k, v)]
  | (k', v') :: rest, k, v =>
    if k' = k then (k', v) :: rest else (k', v') :: assocSet rest k v

/-- Python `d.get(k)` on a value dict. -/

def recGet? (r : PyRec) (k : String) : Option Val :=
  assocGet? r k

/-- Python `d.get(k, default)`. -/

def recGetD (r : PyRec) (k : String) (d : Val) : Val :=
  (recGet? r k).getD d

/-- Python `k in d`. -/

def recHas (r : PyRec) (k : String) : Bool :=
  (recGet? r k).isSome

/-- Python `d[k] = v` on a value dict. -/

def recSet (r : PyRec) (k : String) (v : Val) : PyRec :=
  assocSet r k v

/-- Python truthiness of a `Val`: `None`, `0`, `""`, `{}`, `[]` are falsy. -/

def pyTruthy : Val → Bool
  | Val.none_v => false
  | Val.num q => q ≠ 0
  | Val.str s => s ≠ ""
  | Val.dict d => !d.isEmpty
  | Val.list l => !l.isEmpty

/-- Coerce a `Val` to a number; in Python, using a non-number where a
number is required raises `TypeError`, modelled as `Except.error`. -/

def valNumE : Val → Except Unit ℚ
  | Val.num q => Except.ok q
  | _ => Except.error ()

/-- Python `v.get(k, default)`: only dicts have `.get`, anything else
raises `AttributeError`. -/

def valGet (v : Val) (k : String) (d : Val) : Except Unit Val :=
  match v with
  | Val.dict r => Except.ok (recGetD r k d)
  | _ => Except.error ()

/-- Python `v[0]`: first element of a list (or 1-character string);
empty sequences raise `IndexError`, dicts raise `KeyError` (no integer
keys occur in these payloads), numbers and `None` raise `TypeError`. -/

def valSub0 : Val → Except Unit Val
  | Val.list (x :: _) => Except.ok x
  | Val.str s =>
    match s.data with
    | c :: _ => Except.ok (Val.str (String.mk [c]))
    | [] => Except.error ()
  | _ => Except.error ()

/-- Executable floor of a rational (kernel-reducible, unlike the
`FloorRing` instance). -/

def ratFloor (q : ℚ) : ℤ :=
  Int.fdiv q.num q.den

/-- Round-half-to-even on rationals (the rounding used by Python's
`round`). -/

def roundHalfEven (x : ℚ) : ℤ :=
  let n := ratFloor x
  let r := x - n
  if r < 1/2 then n
  else if 1/2 < r then n + 1
  else if n % 2 = 0 then n else n + 1

/-- Python `round(x, 2)` on the exact rational abstraction. -/

def pyRound2 (x : ℚ) : ℚ :=
  (roundHalfEven (x * 100) : ℚ) / 100

/-- Proleptic Gregorian civil date from a count of days since the Unix
epoch (1970-01-01): year, month, day. -/

def civilFromDays (z0 : ℤ) : ℤ × ℕ × ℕ :=
  let z := z0 + 719468
  let era : ℤ := Int.fdiv z 146097
  let doe : ℕ := (z - era * 146097).toNat
  let yoe : ℕ := (doe - doe / 1460 + doe / 36524 - doe / 146096) / 365
  let y : ℤ := (yoe : ℤ) + era * 400
  let doy : ℕ := doe - (365 * yoe + yoe / 4 - yoe / 100)
  let mp : ℕ := (5 * doy + 2) / 153
  let d : ℕ := doy - (153 * mp + 2) / 5 + 1
  let m : ℕ := if mp < 10 then mp + 3 else mp - 9
  (if m ≤ 2 then y + 1 else y, m, d)

/-- Zero-pad a number below 100 to two digits. -/

def pad2 (n : ℕ) : String :=
  if n < 10 then "0" ++ toString n else toString n

/-- Zero-pad a year to four digits (Python datetime years are 1..9999). -/

def pad4 (y : ℤ) : String :=
  if y < 10 then "000" ++ toString y
  else if y < 100 then "00" ++ toString y
  else if y < 1000 then "0" ++ toString y
  else toString y

/-- Zero-pad a microsecond count to six digits. -/

def pad6 (n : ℕ) : String :=
  if n < 10 then "00000" ++ toString n
  else if n < 100 then "0000" ++ toString n
  else if n < 1000 then "000" ++ toString n
  else if n < 10000 then "00" ++ toString n
  else if n < 100000 then "0" ++ toString n
  else toString n

/-- ISO-8601 rendering of a naive civil datetime given by whole epoch
seconds (already shifted into the target timezone). -/

def secondsToIso (t : ℤ) : String :=
  let days := Int.fdiv t 86400
  let secs := (Int.fmod t 86400).toNat
  let ymd := civilFromDays days
  pad4 ymd.1 ++ "-" ++ pad2 ymd.2.1 ++ "-" ++ pad2 ymd.2.2 ++ "T" ++
    pad2 (secs / 3600) ++ ":" ++ pad2 (secs % 3600 / 60) ++ ":" ++ pad2 (secs % 60)

/-- Model of Python `datetime.fromtimestamp(q).isoformat()` in a process
whose local timezone is the fixed UTC offset `tz` (in seconds): a naive
local-time ISO string with no UTC offset suffix.  Fractional epoch
seconds become microseconds (shown only when non-zero), as in CPython. -/

def fromtimestamp_isoformat (tz : ℤ) (q : ℚ) : String :=
  let sec : ℤ := ratFloor q
  let us0 : ℤ := roundHalfEven ((q - (sec : ℚ)) * 1000000)
  let sec2 : ℤ := if 1000000 ≤ us0 then sec + 1 else sec
  let us : ℤ := if 1000000 ≤ us0 then us0 - 1000000 else us0
  secondsToIso (sec2 + tz) ++ (if us = 0 then "" else "." ++ pad6 us.toNat)

/-- Model of `datetime.fromtimestamp(q, tz=timezone.utc).isoformat()`:
the conversion the specification describes (ISO-8601 UTC).  An aware
UTC datetime renders with a `+00:00` suffix. -/

def fromtimestamp_utc_isoformat (q : ℚ) : String :=
  fromtimestamp_isoformat 0 q ++ "+00:00"

/-! ## Model of `src/etl/transform.py` -/

/-- Python `v is None`. -/

def is_none_v : Val → Bool
  | Val.none_v => true
  | _ => false

/-- The flat canonical dict literal built by
`WeatherTransformer.transform_weather_data` (transform.py lines 40-95),
in source insertion order.  `tz` is the process-local UTC offset used
by the naive `datetime.fromtimestamp` calls, `nowIso` the
`datetime.now(timezone.utc).isoformat()` wall-clock string.  Any Python
exception along the way (non-dict sections, empty `weather` list,
non-numeric epochs) is `Except.error`. -/

def build_transformed (tz : ℤ) (nowIso : String) (raw : PyRec) : Except Unit PyRec := do
  let main_data := recGetD raw "main" (Val.dict [])
  let weather_data ← valSub0 (recGetD raw "weather" (Val.list [Val.dict []]))
  let wind_data := recGetD raw "wind" (Val.dict [])
  let clouds_data := recGetD raw "clouds" (Val.dict [])
  let sys_data := recGetD raw "sys" (Val.dict [])
  let coord_data := recGetD raw "coord" (Val.dict [])
  let country_code ← valGet sys_data "country" Val.none_v
  let latitude ← valGet coord_data "lat" Val.none_v
  let longitude ← valGet coord_data "lon" Val.none_v
  let temperature ← valGet main_data "temp" Val.none_v
  let temperature_feels_like ← valGet main_data "feels_like" Val.none_v
  let temperature_min ← valGet main_data "temp_min" Val.none_v
  let temperature_max ← valGet main_data "temp_max" Val.none_v
  let pressure ← valGet main_data "pressure" Val.none_v
  let humidity ← valGet main_data "humidity" Val.none_v
  let sea_level ← valGet main_data "sea_level" Val.none_v
  let grnd_level ← valGet main_data "grnd_level" Val.none_v
  let weather_main ← valGet weather_data "main" Val.none_v
  let weather_description ← valGet weather_data "description" Val.none_v
  let weather_icon ← valGet weather_data "icon" Val.none_v
  let wind_speed ← valGet wind_data "speed" Val.none_v
  let wind_direction ← valGet wind_data "deg" Val.none_v
  let wind_gust ← valGet wind_data "gust" Val.none_v
  let cloudiness ← valGet clouds_data "all" Val.none_v
  let dtEpoch ← valNumE (recGetD raw "dt" (Val.num 0))
  let sunriseRaw ← valGet sys_data "sunrise" Val.none_v
  let sunrise ← if pyTruthy sunriseRaw then do
      let q ← valNumE sunriseRaw
      pure (Val.str (fromtimestamp_isoformat tz q))
    else pure Val.none_v
  let sunsetRaw ← valGet sys_data "sunset" Val.none_v
  let sunset ← if pyTruthy sunsetRaw then do
      let q ← valNumE sunsetRaw
      pure (Val.str (fromtimestamp_isoformat tz q))
    else pure Val.none_v
  pure [
    ("city_id", recGetD raw "id" Val.none_v),
    ("city_name", recGetD raw "name" Val.none_v),
    ("country_code", country_code),
    ("latitude", latitude),
    ("longitude", longitude),
    ("temperature", temperature),
    ("temperature_feels_like", temperature_feels_like),
    ("temperature_min", temperature_min),
    ("temperature_max", temperature_max),
    ("pressure", pressure),
    ("humidity", humidity),
    ("sea_level_pressure", sea_level),
    ("ground_level_pressure", grnd_level),
    ("weather_main", weather_main),
    ("weather_description", weather_description),
    ("weather_icon", weather_icon),
    ("wind_speed", wind_speed),
    ("wind_direction", wind_direction),
    ("wind_gust", wind_gust),
    ("cloudiness", cloudiness),
    ("visibility", recGetD raw "visibility" Val.none_v),
    ("data_timestamp", Val.str (fromtimestamp_isoformat tz dtEpoch)),
    ("sunrise", sunrise),
    ("sunset", sunset),
    ("extracted_at", recGetD raw "extracted_at" Val.none_v),
    ("processed_at", Val.str nowIso),
    ("timezone_offset", recGetD raw "timezone" Val.none_v)]

/-- Model of `WeatherTransformer._validate_transformed_data` (transform.py lines
111-146): each required field must not be `None`; then the temperature
and humidity range checks, whose comparisons raise `TypeError`
(`Except.error`) on non-numeric values. -/

def validate_transformed_data (d : PyRec) : Except Unit Bool :=
  if is_none_v (recGetD d "city_name" Val.none_v) then Except.ok false
  else if is_none_v (recGetD d "country_code" Val.none_v) then Except.ok false
  else if is_none_v (recGetD d "temperature" Val.none_v) then Except.ok false
  else if is_none_v (recGetD d "humidity" Val.none_v) then Except.ok false
  else if is_none_v (recGetD d "pressure" Val.none_v) then Except.ok false
  else if is_none_v (recGetD d "weather_main" Val.none_v) then Except.ok false
  else
    match valNumE (recGetD d "temperature" (Val.num 0)) with
    | Except.error e => Except.error e
    | Except.ok t =>
      if ¬ (-100 ≤ t ∧ t ≤ 60) then Except.ok false
      else
        match valNumE (recGetD d "humidity" (Val.num 0)) with
        | Except.error e => Except.error e
        | Except.ok h =>
          if ¬ (0 ≤ h ∧ h ≤ 100) then Except.ok false
          else Except.ok true

/-- Model of `WeatherTransformer.transform_weather_data` (transform.py lines
22-109): reject falsy payloads and payloads without a "main" section,
build the flat record, validate it; every exception is caught by the
blanket `except` and becomes `None`. -/

def transform_weather_data (tz : ℤ) (nowIso : String) (raw : PyRec) : Option PyRec :=
  if raw.isEmpty || !recHas raw "main" then none
  else
    match build_transformed tz nowIso raw with
    | Except.error _ => none
    | Except.ok td =>
      match validate_transformed_data td with
      | Except.error _ => none
      | Except.ok true => some td
      | Except.ok false => none

/-- The `heat_index` block of `add_derived_fields` (transform.py lines
184-191): computed only when `temp` and `humidity` are both truthy;
arithmetic on a non-number raises (`Except.error` carrying the dict as
mutated so far). -/

def heat_index_step (temp humidity : Val) (data : PyRec) : Except PyRec PyRec :=
  if pyTruthy temp && pyTruthy humidity then
    match valNumE temp, valNumE humidity with
    | Except.ok t, Except.ok h =>
      Except.ok (recSet data "heat_index" (Val.num (pyRound2 (t + mkRat 1 2 * (h - 50)))))
    | _, _ => Except.error data
  else Except.ok data

/-- The `temperature_category` block of `add_derived_fields`
(transform.py lines 193-202). -/

def temperature_category_step (temp : Val) (data : PyRec) : Except PyRec PyRec :=
  if is_none_v temp then Except.ok data
  else
    match valNumE temp with
    | Except.error _ => Except.error data
    | Except.ok t =>
      Except.ok (recSet data "temperature_category" (Val.str
        (if t < 10 then "Frio"
         else if t ≤ 25 then "Ameno"
         else if t ≤ 35 then "Quente"
         else "Muito Quente")))

/-- The `humidity_category` block of `add_derived_fields` (transform.py
lines 204-211). -/

def humidity_category_step (humidity : Val) (data : PyRec) : Except PyRec PyRec :=
  if is_none_v humidity then Except.ok data
  else
    match valNumE humidity with
    | Except.error _ => Except.error data
    | Except.ok h =>
      Except.ok (recSet data "humidity_category" (Val.str
        (if h ≤ 30 then "Baixa"
         else if h < 60 then "Moderada"
         else "Alta")))

/-- Model of `WeatherTransformer.add_derived_fields` (transform.py lines
173-217): `temp` and `humidity` are read once up front; the three
blocks mutate the dict in place; the blanket `except` returns the dict
in whatever state it had reached when the exception was raised. -/

def add_derived_fields (data : PyRec) : PyRec :=
  let temp := recGetD data "temperature" (Val.num 0)
  let humidity := recGetD data "humidity" (Val.num 0)
  match heat_index_step temp humidity data with
  | Except.error d => d
  | Except.ok d1 =>
    match temperature_category_step temp d1 with
    | Except.error d => d
    | Except.ok d2 =>
      match humidity_category_step humidity d2 with
      | Except.error d => d
      | Except.ok d3 => d3

/-- The whitespace characters stripped by Python `str.strip()` (the
ASCII repertoire: space, TAB, LF, VT, FF, CR). -/

def pyIsSpace (c : Char) : Bool :=
  c.toNat = 32 || c.toNat = 9 || c.toNat = 10 || c.toNat = 11 || c.toNat = 12 || c.toNat = 13

/-- Uppercase/titlecase mapping used by `str.title()`, restricted to
the character repertoire the city names use: ASCII letters plus the
pair U+00E3 / U+00C3 ('ã'/'Ã'); other characters are treated as
uncased and map to themselves. -/

def pyToUpper (c : Char) : Char :=
  if c.toNat = 227 then Char.ofNat 195
  else if 97 ≤ c.toNat ∧ c.toNat ≤ 122 then Char.ofNat (c.toNat - 32)
  else c

/-- Lowercase mapping used by `str.title()` (same repertoire as
`pyToUpper`). -/

def pyToLower (c : Char) : Char :=
  if c.toNat = 195 then Char.ofNat 227
  else if 65 ≤ c.toNat ∧ c.toNat ≤ 90 then Char.ofNat (c.toNat + 32)
  else c

/-- Python's notion of a cased character, on the modelled repertoire. -/

def pyIsCased (c : Char) : Bool :=
  (65 ≤ c.toNat && c.toNat ≤ 90) || (97 ≤ c.toNat && c.toNat ≤ 122) ||
    c.toNat = 227 || c.toNat = 195

/-- Worker of `str.title()`: a character after a cased character is
lowercased, any other character is title/uppercased; the state is
whether the previous original character was cased (as in CPython). -/

def pyTitleGo : Bool → List Char → List Char
  | _, [] => []
  | prev, c :: cs => (if prev then pyToLower c else pyToUpper c) :: pyTitleGo (pyIsCased c) cs

/-- Python `s.title()` on the modelled repertoire. -/

def pyTitle (s : String) : String :=
  String.mk (pyTitleGo false s.data)

/-- Drop the longest trailing run of characters satisfying `p`. -/

def dropTrailWhile (p : Char → Bool) : List Char → List Char
  | [] => []
  | c :: cs =>
    let r := dropTrailWhile p cs
    if r.isEmpty then (if p c then [] else [c]) else c :: r

/-- Python `s.strip()`. -/

def pyStrip (s : String) : String :=
  String.mk (dropTrailWhile pyIsSpace (s.data.dropWhile pyIsSpace))

/-- Model of `WeatherTransformer.normalize_city_name` (transform.py lines
148-171): falsy input yields `""`; otherwise strip, title-case, and
apply the special-case replacement table. -/

def normalize_city_name (city_name : String) : String :=
  if city_name = "" then ""
  else
    let normalized := pyTitle (pyStrip city_name)
    if normalized = "Sao Paulo" then "São Paulo"
    else if normalized = "Rio De Janeiro" then "Rio de Janeiro"
    else if normalized = "Belo Horizonte" then "Belo Horizonte"
    else normalized

/-! ## Model of `src/etl/extract.py` -/

/-- Model of `WeatherExtractor.extract_weather_data` (extract.py lines 31-76).
The provider call is the oracle `api`: `some body` for a 2xx JSON
response, `none` when the request raises (RequestException,
JSONDecodeError, or anything else — every handler returns `None`).
On success the UTC extraction timestamp `nowUtcIso` is stamped into
the payload. -/

def extract_weather_data (api : String → Option PyRec) (nowUtcIso : String)
    (city : String) : Option PyRec :=
  match api city with
  | none => none
  | some weather_data => some (recSet weather_data "extracted_at" (Val.str nowUtcIso))

/-- Model of `WeatherExtractor.extract_multiple_cities` (extract.py lines
78-97): one results dict, each city processed independently, a falsy
result (failure) is only logged and omitted. -/

def extract_multiple_cities (api : String → Option PyRec) (nowUtcIso : String)
    (cities : List String) : List (String × PyRec) :=
  cities.foldl
    (fun results city =>
      match extract_weather_data api nowUtcIso city with
      | some data => if data.isEmpty then results else assocSet results city data
      | none => results)
    []

/-! ## Model of `src/etl/load.py` -/

/-- A value as bound to an SQL parameter by the loader: either an
unchanged Python value or a parsed `datetime`. -/

structure PyDateTime where
  year : ℕ
  month : ℕ
  day : ℕ
  hour : ℕ
  minute : ℕ
  second : ℕ
  microsecond : ℕ
  utcOffsetSeconds : Option ℤ
  deriving DecidableEq

/-- A prepared insert parameter: a plain value or a parsed datetime. -/

inductive PVal where
  | v : Val → PVal
  | dt : PyDateTime → PVal

/-- Decimal digit value of a character, if it is a digit. -/

def digit? (c : Char) : Option ℕ :=
  if 48 ≤ c.toNat ∧ c.toNat ≤ 57 then some (c.toNat - 48) else none

/-- Parse exactly two decimal digits. -/

def parse2 : List Char → Option (ℕ × List Char)
  | c1 :: c2 :: rest => do
    let d1 ← digit? c1
    let d2 ← digit? c2
    pure (d1 * 10 + d2, rest)
  | _ => none

/-- Gregorian leap year. -/

def isLeap (y : ℕ) : Bool :=
  y % 4 = 0 && (y % 100 ≠ 0 || y % 400 = 0)

/-- Days in a month. -/

def daysInMonth (y m : ℕ) : ℕ :=
  if m = 2 then (if isLeap y then 29 else 28)
  else if m = 4 || m = 6 || m = 9 || m = 11 then 30
  else 31

/-- Parse the fractional-second part of an ISO time: exactly 3 or 6
digits, yielding microseconds (as `datetime.fromisoformat` accepts). -/

def parseFrac (l : List Char) : Option (ℕ × List Char) :=
  match l with
  | a :: b :: c :: d :: e :: f :: rest =>
    match digit? a, digit? b, digit? c, digit? d, digit? e, digit? f with
    | some x1, some x2, some x3, some x4, some x5, some x6 =>
      some (((((x1 * 10 + x2) * 10 + x3) * 10 + x4) * 10 + x5) * 10 + x6, rest)
    | some x1, some x2, some x3, _, _, _ =>
      if (digit? d).isNone then some ((x1 * 100 + x2 * 10 + x3) * 1000, d :: e :: f :: rest)
      else none
    | _, _, _, _, _, _ => none
  | a :: b :: c :: rest =>
    match digit? a, digit? b, digit? c with
    | some x1, some x2, some x3 =>
      match rest with
      | [] => some ((x1 * 100 + x2 * 10 + x3) * 1000, [])
      | d :: _ => if (digit? d).isNone then some ((x1 * 100 + x2 * 10 + x3) * 1000, rest) else none
    | _, _, _ => none
  | _ => none

/-- Parse an optional UTC-offset suffix `±HH:MM[:SS]` (empty input
means a naive datetime). -/

def parseTz (l : List Char) : Option (Option ℤ) :=
  match l with
  | [] => some none
  | sign :: rest =>
    if sign.toNat = 43 ∨ sign.toNat = 45 then
      match parse2 rest with
      | some (hh, r1) =>
        match r1 with
        | colon :: r2 =>
          if colon.toNat = 58 then
            match parse2 r2 with
            | some (mm, r3) =>
              if hh ≤ 23 ∧ mm ≤ 59 then
                let base : ℤ := hh * 3600 + mm * 60
                match r3 with
                | [] => some (some (if sign.toNat = 45 then -base else base))
                | colon2 :: r4 =>
                  if colon2.toNat = 58 then
                    match parse2 r4 with
                    | some (ss, []) =>
                      if ss ≤ 59 then
                        some (some (if sign.toNat = 45 then -(base + ss) else base + ss))
                      else none
                    | _ => none
                  else none
              else none
            | none => none
          else none
        | [] => none
      | none => none
    else none

/-- Parse the time-of-day part `HH[:MM[:SS[.fff[fff]]]]` followed by an
optional offset. -/

def parseTimePart (l : List Char) : Option (ℕ × ℕ × ℕ × ℕ × Option ℤ) := do
  let (hh, r1) ← parse2 l
  if hh ≤ 23 then
    match r1 with
    | c1 :: r2 =>
      if c1.toNat = 58 then do
        let (mm, r3) ← parse2 r2
        if mm ≤ 59 then
          match r3 with
          | c2 :: r4 =>
            if c2.toNat = 58 then do
              let (ss, r5) ← parse2 r4
              if ss ≤ 59 then
                match r5 with
                | c3 :: r6 =>
                  if c3.toNat = 46 then do
                    let (us, r7) ← parseFrac r6
                    let tz ← parseTz r7
                    pure (hh, mm, ss, us, tz)
                  else do
                    let tz ← parseTz r5
                    pure (hh, mm, ss, 0, tz)
                | [] => pure (hh, mm, ss, 0, none)
              else none
            else do
              let tz ← parseTz r3
              pure (hh, mm, 0, 0, tz)
          | [] => pure (hh, mm, 0, 0, none)
        else none
      else do
        let tz ← parseTz r1
        pure (hh, 0, 0, 0, tz)
    | [] => pure (hh, 0, 0, 0, none)
  else none

/-- Model of `datetime.fromisoformat` (as available to this code:
`YYYY-MM-DD[*HH[:MM[:SS[.fff[fff]]]][±HH:MM[:SS]]]`), returning `none`
where CPython raises `ValueError`. -/

def parse_isoformat (s : String) : Option PyDateTime :=
  match s.data with
  | y1 :: y2 :: y3 :: y4 :: dash1 :: m1 :: m2 :: dash2 :: d1 :: d2 :: rest =>
    match digit? y1, digit? y2, digit? y3, digit? y4, digit? m1, digit? m2,
        digit? d1, digit? d2 with
    | some a, some b, some c, some d, some e, some f, some g, some h =>
      if dash1.toNat = 45 ∧ dash2.toNat = 45 then
        let year := ((a * 10 + b) * 10 + c) * 10 + d
        let month := e * 10 + f
        let day := g * 10 + h
        if 1 ≤ year ∧ 1 ≤ month ∧ month ≤ 12 ∧ 1 ≤ day ∧ day ≤ daysInMonth year month then
          match rest with
          | [] => some ⟨year, month, day, 0, 0, 0, 0, none⟩
          | _sep :: trest =>
            match parseTimePart trest with
            | some (hh, mm, ss, us, tz) => some ⟨year, month, day, hh, mm, ss, us, tz⟩
            | none => none
        else none
      else none
    | _, _, _, _, _, _, _, _ => none
  | _ => none

/-- Python `s.replace("Z", "+00:00")`. -/

def replaceZ (s : String) : String :=
  String.mk (s.data.foldr (fun c acc => if c.toNat = 90 then '+' :: '0' :: '0' :: ':' :: '0' :: '0' :: acc else c :: acc) [])

/-- The inner `parse_timestamp` helper of
`WeatherLoader._prepare_data_for_insert` (load.py lines 189-195): falsy
values and anything the parse rejects (including non-strings, whose
`.replace` raises into the bare `except`) become `None`. -/

def parse_timestamp (tsv : Val) : Option PyDateTime :=
  if pyTruthy tsv then
    match tsv with
    | Val.str s => parse_isoformat (replaceZ s)
    | _ => none
  else none

/-- The five fields `_prepare_data_for_insert` converts. -/

def timestamp_fields : List String :=
  ["data_timestamp", "sunrise", "sunset", "extracted_at", "processed_at"]

/-- Model of `WeatherLoader._prepare_data_for_insert` (load.py lines 177-211):
copy the record and, for each timestamp field present, replace the
value by the parsed datetime or `None`. -/

def prepare_data_for_insert (data : PyRec) : List (String × PVal) :=
  timestamp_fields.foldl
    (fun pd f =>
      match assocGet? pd f with
      | none => pd
      | some pv =>
        assocSet pd f
          (match pv with
           | PVal.v v =>
             match parse_timestamp v with
             | some t => PVal.dt t
             | none => PVal.v Val.none_v
           | PVal.dt _ => PVal.v Val.none_v))
    (data.map (fun kv => (kv.1, PVal.v kv.2)))

/-- Model of `WeatherLoader.load_weather_data` (load.py lines 124-175).  The
store is the oracle `db`, deciding whether the parameterized INSERT of
the prepared record succeeds; every `psycopg2.Error` and unexpected
exception is caught and turned into `False`, so the function is a total
Bool. -/

def load_weather_data (db : List (String × PVal) → Bool) (data : PyRec) : Bool :=
  db (prepare_data_for_insert data)

/-- Model of `WeatherLoader.load_multiple_records` (load.py lines 213-230):
sequential loop counting the successful inserts. -/

def load_multiple_records (db : List (String × PVal) → Bool) (data_list : List PyRec) : ℕ :=
  data_list.foldl (fun success_count data =>
    if load_weather_data db data then success_count + 1 else success_count) 0

/-! ## Model of `src/etl/main_etl.py` -/

/-- The pipeline lifetime statistics dict (main_etl.py lines 53-61). -/

structure Stats where
  total_runs : ℕ
  successful_extractions : ℕ
  failed_extractions : ℕ
  successful_loads : ℕ
  failed_loads : ℕ
  last_run : Option String
  last_success : Option String
  deriving DecidableEq

/-- The ambient world of one pipeline run: the provider (`api`), the
store (`db`), the outcomes of `loader.connect()` and
`loader.create_tables()`, the process-local timezone offset, the UTC
wall-clock reading (a single reading models the run) and its epoch. -/

structure Env where
  api : String → Option PyRec
  db : List (String × PVal) → Bool
  connectOk : Bool
  createTablesOk : Bool
  tz : ℤ
  nowIso : String
  nowEpoch : ℤ

/-- Model of `WeatherETLPipeline.setup_database` (main_etl.py lines 63-84). -/

def setup_database (env : Env) : Bool :=
  env.connectOk && env.createTablesOk

/-- Model of `WeatherETLPipeline.run_etl_for_city` (main_etl.py lines 86-132):
extract (falsy → count a failed extraction), count the successful
extraction, transform (falsy → plain `False`), enrich, load (failure →
count a failed load), full success counts a successful load. -/

def run_etl_for_city (env : Env) (st : Stats) (city : String) : Bool × Stats :=
  let raw? := extract_weather_data env.api env.nowIso city
  match raw? with
  | none => (false, { st with failed_extractions := st.failed_extractions + 1 })
  | some raw =>
    if raw.isEmpty then
      (false, { st with failed_extractions := st.failed_extractions + 1 })
    else
      let st1 := { st with successful_extractions := st.successful_extractions + 1 }
      match transform_weather_data env.tz env.nowIso raw with
      | none => (false, st1)
      | some transformed =>
        if transformed.isEmpty then (false, st1)
        else
          let final_data := add_derived_fields transformed
          if load_weather_data env.db final_data then
            (true, { st1 with successful_loads := st1.successful_loads + 1 })
          else
            (false, { st1 with failed_loads := st1.failed_loads + 1 })

/-- One per-city entry of the run report's `city_results` dict. -/

structure CityOutcome where
  success : Bool
  timestamp : String
  deriving DecidableEq

/-- The per-city loop of `run_full_etl` (main_etl.py lines 156-176),
threading the statistics, the results dict and the success counter.
(The `except` branch inside the loop is unreachable:
`run_etl_for_city` catches all exceptions.) -/

def etl_loop (env : Env) : List String → Stats → List (String × CityOutcome) → ℕ →
    Stats × List (String × CityOutcome) × ℕ
  | [], st, results, n => (st, results, n)
  | city :: rest, st, results, n =>
    let r := run_etl_for_city env st city
    etl_loop env rest r.2 (assocSet results city ⟨r.1, env.nowIso⟩) (if r.1 then n + 1 else n)

/-- A run report (main_etl.py lines 194-215 plus the keys added by
`run_full_etl`); the three per-city keys are absent (`none`) on the
early database-failure return. -/

structure Report where
  execution_id : String
  start_time : String
  end_time : String
  duration_seconds : ℚ
  success : Bool
  statistics : Stats
  city_results : Option (List (String × CityOutcome))
  successful_cities : Option ℕ
  total_cities : Option ℕ

/-- Model of `WeatherETLPipeline._generate_report` (main_etl.py lines 194-215);
with the single clock reading of the run the duration is 0. -/

def generate_report (env : Env) (st : Stats) (success : Bool) : Report :=
  { execution_id := "etl_" ++ toString env.nowEpoch
    start_time := env.nowIso
    end_time := env.nowIso
    duration_seconds := 0
    success := success
    statistics := st
    city_results := none
    successful_cities := none
    total_cities := none }

/-- Model of `WeatherETLPipeline.run_full_etl` (main_etl.py lines 134-192).
`connected` is the truthiness of `self.loader.connection`; the returned
Bool is its new state (a successful `connect()` sets it even when
`create_tables()` then fails). -/

def run_full_etl (env : Env) (connected : Bool) (st0 : Stats) (cities : List String) :
    Report × Bool × Stats :=
  let st1 := { st0 with total_runs := st0.total_runs + 1, last_run := some env.nowIso }
  if !connected && !setup_database env then
    (generate_report env st1 false, connected || env.connectOk, st1)
  else
    let loopOut := etl_loop env cities st1 [] 0
    let st2 := loopOut.1
    let results := loopOut.2.1
    let successful_cities := loopOut.2.2
    let st3 := if 0 < successful_cities then { st2 with last_success := some env.nowIso } else st2
    let base := generate_report env st3 (decide (0 < successful_cities))
    ({ base with
        city_results := some results
        successful_cities := some successful_cities
        total_cities := some cities.length },
      true, st3)

def sampleRaw : PyRec := [
  ("coord", Val.dict [("lon", Val.num (mkRat (-466361) 10000)), ("lat", Val.num (mkRat (-235475) 10000))]),
  ("weather", Val.list [Val.dict [("id", Val.num 800), ("main", Val.str "Clear"),
    ("description", Val.str "céu limpo"), ("icon", Val.str "01d")]]),
  ("base", Val.str "stations"),
  ("main", Val.dict [("temp", Val.num (mkRat 255 10)), ("feels_like", Val.num (mkRat 262 10)),
    ("temp_min", Val.num (mkRat 231 10)), ("temp_max", Val.num (mkRat 283 10)),
    ("pressure", Val.num 1013), ("humidity", Val.num 65)]),
  ("visibility", Val.num 10000),
  ("wind", Val.dict [("speed", Val.num (mkRat 35 10)), ("deg", Val.num 180)]),
  ("clouds", Val.dict [("all", Val.num 0)]),
  ("dt", Val.num 1640995200),
  ("sys", Val.dict [("type", Val.num 1), ("id", Val.num 8394), ("country", Val.str "BR"),
    ("sunrise", Val.num 1640944800), ("sunset", Val.num 1640995200)]),
  ("timezone", Val.num (-10800)),
  ("id", Val.num 3448439),
  ("name", Val.str "São Paulo"),
  ("cod", Val.num 200),
  ("extracted_at", Val.str "2024-01-01T12:00:00")]

/-- The property "no leading or trailing whitespace", decidably. -/

def no_edge_ws (s : String) : Bool :=
  (match s.data.head? with | none => true | some c => !pyIsSpace c) &&
  (match s.data.getLast? with | none => true | some c => !pyIsSpace c)

/-- A raw payload with an empty (but non-null) city name and otherwise
valid measurements.  Python's `is None` check lets `""` through. -/

def rawEmptyName : PyRec := [
  ("name", Val.str ""),
  ("main", Val.dict [("temp", Val.num 20), ("pressure", Val.num 1000),
    ("humidity", Val.num 50)]),
  ("weather", Val.list [Val.dict [("main", Val.str "Clear")]]),
  ("sys", Val.dict [("country", Val.str "BR")])]

/-- The success of one city's ETL, independent of the statistics
threading (same branching as `run_etl_for_city`). -/

def city_succeeds (env : Env) (city : String) : Bool :=
  match extract_weather_data env.api env.nowIso city with
  | none => false
  | some raw =>
    if raw.isEmpty then false
    else
      match transform_weather_data env.tz env.nowIso raw with
      | none => false
      | some transformed =>
        if transformed.isEmpty then false
        else load_weather_data env.db (add_derived_fields transformed)

/-- The spec's temperature-category enum (§3), with the spec's
thresholds (§4.2): temp<10 → Cold; 10≤temp≤25 → Mild; 25<temp≤35 →
Hot; temp>35 → VeryHot. -/

inductive SpecTempCategory where
  | Cold : SpecTempCategory
  | Mild : SpecTempCategory
  | Hot : SpecTempCategory
  | VeryHot : SpecTempCategory
  deriving DecidableEq

/-- Classification following the spec text (§4.2) verbatim. -/

def spec_temperature_category (t : ℚ) : SpecTempCategory :=
  if t < 10 then SpecTempCategory.Cold
  else if t ≤ 25 then SpecTempCategory.Mild
  else if t ≤ 35 then SpecTempCategory.Hot
  else SpecTempCategory.VeryHot

/-- The concrete string the source stores for each spec category
(the spec names the enum Cold/Mild/Hot/VeryHot; the code stores the
Portuguese labels). -/

def temperature_category_label : SpecTempCategory → String
  | SpecTempCategory.Cold => "Frio"
  | SpecTempCategory.Mild => "Ameno"
  | SpecTempCategory.Hot => "Quente"
  | SpecTempCategory.VeryHot => "Muito Quente"

/-- Python numeric-or-None values (what the canonical record holds in
its measurement fields). -/

def is_num_or_none : Val → Bool
  | Val.num _ => true
  | Val.none_v => true
  | _ => false

/-- Frame relation for enrichment: `r` agrees with `d` outside the
three derived keys, and keeps every key of `d` present. -/

def enrich_frame_ok (d r : PyRec) : Prop :=
  (∀ k, k ≠ "heat_index" → k ≠ "temperature_category" → k ≠ "humidity_category" →
    recGet? r k = recGet? d k) ∧
  (∀ k, (recGet? d k).isSome = true → (recGet? r k).isSome = true)

/-- A record that already carries a `heat_index` value. -/

def dOver : PyRec :=
  [("temperature", Val.num 20), ("humidity", Val.num 80), ("heat_index", Val.num 999)]

/-- A record on which the humidity block raises `TypeError` after the
temperature category was already written. -/

def dErr : PyRec := [("temperature", Val.num 0), ("humidity", Val.str "wet")]

/-- A valid payload whose `sunrise` epoch is 0 and whose `sunset` is
absent. -/

def rawZeroSun : PyRec := [
  ("name", Val.str "X"),
  ("main", Val.dict [("temp", Val.num 20), ("pressure", Val.num 1000),
    ("humidity", Val.num 50)]),
  ("weather", Val.list [Val.dict [("main", Val.str "Clear")]]),
  ("sys", Val.dict [("country", Val.str "BR"), ("sunrise", Val.num 0)]),
  ("dt", Val.num 1640995200)]

def testEnv : Env :=
  { api := fun city => if city = "São Paulo" then some sampleRaw else none
    db := fun _ => true
    connectOk := true
    createTablesOk := true
    tz := 0
    nowIso := "2024-01-01T12:00:00+00:00"
    nowEpoch := 1704110400 }

def zeroStats : Stats := ⟨0, 0, 0, 0, 0, none, none⟩

/-- An environment whose provider answers with a payload lacking the
"main" section: extraction succeeds, transformation fails. -/

def envNoMain : Env :=
  { api := fun _ => some [("cod", Val.num 401)]
    db := fun _ => true
    connectOk := true
    createTablesOk := true
    tz := 0
    nowIso := "T"
    nowEpoch := 0 }

/-! ## Lemmas and claim theorems -/

theorem assocGet?_assocSet {α : Type} (l : List (String × α)) (k k2 : String) (v : α) :
    assocGet? (assocSet l k v) k2 = if k = k2 then some v else assocGet? l k2 := by
  induction l with
  | nil => simp [assocSet, assocGet?]
  | cons kv rest ih =>
    obtain ⟨k1, v1⟩ := kv
    by_cases h1 : k1 = k
    · subst h1
      by_cases h2 : k1 = k2 <;> simp [assocSet, assocGet?, h2]
    · by_cases h2 : k1 = k2
      · subst h2
        simp [assocSet, assocGet?, h1, Ne.symm h1]
      · simp [assocSet, assocGet?, h1, h2, ih]

theorem assocSet_isEmpty {α : Type} (l : List (String × α)) (k : String) (v : α) :
    (assocSet l k v).isEmpty = false := by
  cases l with
  | nil => simp [assocSet]
  | cons kv rest =>
    by_cases h : kv.1 = k <;> simp [assocSet, h]

theorem assocSet_of_get_none {α : Type} (l : List (String × α)) (k : String) (v : α)
    (h : assocGet? l k = none) : assocSet l k v = l ++ [(k, v)] := by
  induction l with
  | nil => simp [assocSet]
  | cons kv rest ih =>
    obtain ⟨k1, v1⟩ := kv
    by_cases h1 : k1 = k
    · simp [assocGet?, h1] at h
    · simp [assocGet?, h1] at h
      simp [assocSet, h1, ih h]

theorem assocGet?_append_left {α : Type} (l1 l2 : List (String × α)) (k : String) (v : α)
    (h : assocGet? l1 k = some v) : assocGet? (l1 ++ l2) k = some v := by
  induction l1 with
  | nil => simp [assocGet?] at h
  | cons kv rest ih =>
    by_cases h1 : kv.1 = k
    · simp [assocGet?, h1] at h ⊢
      exact h
    · simp [assocGet?, h1] at h ⊢
      exact ih h

theorem assocGet?_append_right {α : Type} (l1 l2 : List (String × α)) (k : String)
    (h : assocGet? l1 k = none) : assocGet? (l1 ++ l2) k = assocGet? l2 k := by
  induction l1 with
  | nil => simp
  | cons kv rest ih =>
    by_cases h1 : kv.1 = k
    · simp [assocGet?, h1] at h
    · simp [assocGet?, h1] at h ⊢
      exact ih h

theorem foldl_count_if {α : Type} (p : α → Bool) (l : List α) (n : ℕ) :
    l.foldl (fun c d => if p d then c + 1 else c) n = n + l.countP p := by
  induction l generalizing n with
  | nil => simp
  | cons a rest ih =>
    by_cases h : p a <;> simp [List.countP_cons, h, ih] <;> omega

theorem char_toNat_ofNat (n : ℕ) (h : n < 55296) : (Char.ofNat n).toNat = n := by
  have hv : n.isValidChar := Or.inl h
  simp [Char.ofNat, hv, Char.ofNatAux, Char.toNat, UInt32.toNat]

theorem pyToUpper_pyToUpper (c : Char) : pyToUpper (pyToUpper c) = pyToUpper c := by
  by_cases h1 : c.toNat = 227
  · have hstep : pyToUpper c = Char.ofNat 195 := by simp [pyToUpper, h1]
    rw [hstep]
    decide
  · by_cases h2 : 97 ≤ c.toNat ∧ c.toNat ≤ 122
    · have hstep : pyToUpper c = Char.ofNat (c.toNat - 32) := by
        simp [pyToUpper, h1, h2]
      have hr : (Char.ofNat (c.toNat - 32)).toNat = c.toNat - 32 :=
        char_toNat_ofNat _ (by omega)
      rw [hstep]
      simp only [pyToUpper, hr]
      rw [if_neg (by omega), if_neg (by omega)]
    · have hstep : pyToUpper c = c := by simp [pyToUpper, h1, h2]
      rw [hstep, hstep]

theorem pyToLower_pyToLower (c : Char) : pyToLower (pyToLower c) = pyToLower c := by
  by_cases h1 : c.toNat = 195
  · have hstep : pyToLower c = Char.ofNat 227 := by simp [pyToLower, h1]
    rw [hstep]
    decide
  · by_cases h2 : 65 ≤ c.toNat ∧ c.toNat ≤ 90
    · have hstep : pyToLower c = Char.ofNat (c.toNat + 32) := by
        simp [pyToLower, h1, h2]
      have hr : (Char.ofNat (c.toNat + 32)).toNat = c.toNat + 32 :=
        char_toNat_ofNat _ (by omega)
      rw [hstep]
      simp only [pyToLower, hr]
      rw [if_neg (by omega), if_neg (by omega)]
    · have hstep : pyToLower c = c := by simp [pyToLower, h1, h2]
      rw [hstep, hstep]

theorem pyIsCased_pyToUpper (c : Char) : pyIsCased (pyToUpper c) = pyIsCased c := by
  by_cases h1 : c.toNat = 227
  · have hstep : pyToUpper c = Char.ofNat 195 := by simp [pyToUpper, h1]
    have ha : pyIsCased (Char.ofNat 195) = true := by decide
    have hb : pyIsCased c = true := by simp [pyIsCased, h1]
    rw [hstep, ha, hb]
  · by_cases h2 : 97 ≤ c.toNat ∧ c.toNat ≤ 122
    · have hstep : pyToUpper c = Char.ofNat (c.toNat - 32) := by
        simp [pyToUpper, h1, h2]
      have hr : (Char.ofNat (c.toNat - 32)).toNat = c.toNat - 32 :=
        char_toNat_ofNat _ (by omega)
      rw [hstep, Bool.eq_iff_iff]
      simp only [pyIsCased, hr, Bool.or_eq_true, Bool.and_eq_true, decide_eq_true_eq]
      omega
    · have hstep : pyToUpper c = c := by simp [pyToUpper, h1, h2]
      rw [hstep]

theorem pyIsCased_pyToLower (c : Char) : pyIsCased (pyToLower c) = pyIsCased c := by
  by_cases h1 : c.toNat = 195
  · have hstep : pyToLower c = Char.ofNat 227 := by simp [pyToLower, h1]
    have ha : pyIsCased (Char.ofNat 227) = true := by decide
    have hb : pyIsCased c = true := by simp [pyIsCased, h1]
    rw [hstep, ha, hb]
  · by_cases h2 : 65 ≤ c.toNat ∧ c.toNat ≤ 90
    · have hstep : pyToLower c = Char.ofNat (c.toNat + 32) := by
        simp [pyToLower, h1, h2]
      have hr : (Char.ofNat (c.toNat + 32)).toNat = c.toNat + 32 :=
        char_toNat_ofNat _ (by omega)
      rw [hstep, Bool.eq_iff_iff]
      simp only [pyIsCased, hr, Bool.or_eq_true, Bool.and_eq_true, decide_eq_true_eq]
      omega
    · have hstep : pyToLower c = c := by simp [pyToLower, h1, h2]
      rw [hstep]

theorem pyIsSpace_pyToUpper (c : Char) : pyIsSpace (pyToUpper c) = pyIsSpace c := by
  by_cases h1 : c.toNat = 227
  · have hstep : pyToUpper c = Char.ofNat 195 := by simp [pyToUpper, h1]
    have h195 : (Char.ofNat 195).toNat = 195 := by decide
    rw [hstep, Bool.eq_iff_iff]
    simp only [pyIsSpace, h195, Bool.or_eq_true, decide_eq_true_eq]
    omega
  · by_cases h2 : 97 ≤ c.toNat ∧ c.toNat ≤ 122
    · have hstep : pyToUpper c = Char.ofNat (c.toNat - 32) := by
        simp [pyToUpper, h1, h2]
      have hr : (Char.ofNat (c.toNat - 32)).toNat = c.toNat - 32 :=
        char_toNat_ofNat _ (by omega)
      rw [hstep, Bool.eq_iff_iff]
      simp only [pyIsSpace, hr, Bool.or_eq_true, decide_eq_true_eq]
      omega
    · have hstep : pyToUpper c = c := by simp [pyToUpper, h1, h2]
      rw [hstep]

theorem pyIsSpace_pyToLower (c : Char) : pyIsSpace (pyToLower c) = pyIsSpace c := by
  by_cases h1 : c.toNat = 195
  · have hstep : pyToLower c = Char.ofNat 227 := by simp [pyToLower, h1]
    have h227 : (Char.ofNat 227).toNat = 227 := by decide
    rw [hstep, Bool.eq_iff_iff]
    simp only [pyIsSpace, h227, Bool.or_eq_true, decide_eq_true_eq]
    omega
  · by_cases h2 : 65 ≤ c.toNat ∧ c.toNat ≤ 90
    · have hstep : pyToLower c = Char.ofNat (c.toNat + 32) := by
        simp [pyToLower, h1, h2]
      have hr : (Char.ofNat (c.toNat + 32)).toNat = c.toNat + 32 :=
        char_toNat_ofNat _ (by omega)
      rw [hstep, Bool.eq_iff_iff]
      simp only [pyIsSpace, hr, Bool.or_eq_true, decide_eq_true_eq]
      omega
    · have hstep : pyToLower c = c := by simp [pyToLower, h1, h2]
      rw [hstep]

theorem pyTitleGo_map_isSpace (l : List Char) : ∀ b,
    (pyTitleGo b l).map pyIsSpace = l.map pyIsSpace := by
  induction l with
  | nil => intro b; rfl
  | cons c cs ih =>
    intro b
    simp only [pyTitleGo, List.map_cons, ih]
    by_cases hb : b <;> simp [hb, pyIsSpace_pyToLower, pyIsSpace_pyToUpper]

theorem pyTitleGo_idem (l : List Char) : ∀ b,
    pyTitleGo b (pyTitleGo b l) = pyTitleGo b l := by
  induction l with
  | nil => intro b; rfl
  | cons c cs ih =>
    intro b
    cases b <;>
      simp [pyTitleGo, pyToLower_pyToLower, pyToUpper_pyToUpper,
        pyIsCased_pyToLower, pyIsCased_pyToUpper, ih]

theorem head?_dropTrailWhile (p : Char → Bool) (l : List Char) (c : Char)
    (h : (dropTrailWhile p l).head? = some c) : l.head? = some c := by
  cases l with
  | nil => simp [dropTrailWhile] at h
  | cons a as =>
    simp only [dropTrailWhile] at h
    by_cases he : (dropTrailWhile p as).isEmpty
    · rw [if_pos he] at h
      by_cases hp : p a
      · simp [hp] at h
      · simp [hp] at h
        simp [h]
    · rw [if_neg he] at h
      simp only [List.head?_cons, Option.some.injEq] at h
      simp [h]

theorem getLast?_dropTrailWhile_not (p : Char → Bool) (l : List Char) : ∀ c,
    (dropTrailWhile p l).getLast? = some c → p c = false := by
  induction l with
  | nil => intro c h; simp [dropTrailWhile] at h
  | cons a as ih =>
    intro c h
    simp only [dropTrailWhile] at h
    by_cases he : (dropTrailWhile p as).isEmpty
    · rw [if_pos he] at h
      by_cases hp : p a
      · simp [hp] at h
      · simp [hp] at h
        rw [← h]
        simpa using hp
    · rw [if_neg he] at h
      obtain ⟨b, bs, hbs⟩ : ∃ b bs, dropTrailWhile p as = b :: bs := by
        cases hr : dropTrailWhile p as with
        | nil => rw [hr] at he; simp at he
        | cons b bs => exact ⟨b, bs, rfl⟩
      rw [hbs, List.getLast?_cons_cons] at h
      exact ih c (hbs ▸ h)

theorem dropTrailWhile_eq_self (p : Char → Bool) (l : List Char)
    (h : ∀ c, l.getLast? = some c → p c = false) : dropTrailWhile p l = l := by
  induction l with
  | nil => rfl
  | cons a as ih =>
    cases as with
    | nil =>
      have := h a (by simp)
      simp [dropTrailWhile, this]
    | cons b bs =>
      have hrec : dropTrailWhile p (b :: bs) = b :: bs := by
        apply ih
        intro c hc
        exact h c (by rw [List.getLast?_cons_cons]; exact hc)
      have hunf : dropTrailWhile p (a :: b :: bs) =
          (if (dropTrailWhile p (b :: bs)).isEmpty then (if p a then [] else [a])
           else a :: dropTrailWhile p (b :: bs)) := rfl
      rw [hunf, hrec]
      simp

theorem dropWhile_eq_self_of_head (p : Char → Bool) (l : List Char)
    (h : ∀ c, l.head? = some c → p c = false) : l.dropWhile p = l := by
  cases l with
  | nil => rfl
  | cons a as =>
    have := h a (by simp)
    simp [List.dropWhile_cons, this]

theorem no_edge_ws_iff (s : String) : no_edge_ws s = true ↔
    ((∀ c, s.data.head? = some c → pyIsSpace c = false) ∧
     (∀ c, s.data.getLast? = some c → pyIsSpace c = false)) := by
  unfold no_edge_ws
  cases hh : s.data.head? <;> cases hl : s.data.getLast? <;> simp [hh, hl]

theorem no_edge_ws_pyStrip (s : String) : no_edge_ws (pyStrip s) = true := by
  rw [no_edge_ws_iff]
  constructor
  · intro c hc
    have h2 : (s.data.dropWhile pyIsSpace).head? = some c :=
      head?_dropTrailWhile pyIsSpace _ c hc
    have h3 := List.head?_dropWhile_not pyIsSpace s.data
    rw [h2] at h3
    exact h3
  · intro c hc
    exact getLast?_dropTrailWhile_not pyIsSpace _ c hc

theorem pyStrip_eq_self (s : String) (h : no_edge_ws s = true) : pyStrip s = s := by
  rw [no_edge_ws_iff] at h
  cases s with
  | mk l =>
    show String.mk (dropTrailWhile pyIsSpace (l.dropWhile pyIsSpace)) = String.mk l
    rw [dropWhile_eq_self_of_head pyIsSpace l h.1, dropTrailWhile_eq_self pyIsSpace l h.2]

theorem no_edge_ws_pyTitle (s : String) (h : no_edge_ws s = true) :
    no_edge_ws (pyTitle s) = true := by
  rw [no_edge_ws_iff] at h ⊢
  have hmap := pyTitleGo_map_isSpace s.data false
  have hhead : (pyTitleGo false s.data).head?.map pyIsSpace = s.data.head?.map pyIsSpace := by
    rw [← List.head?_map, ← List.head?_map, hmap]
  have hlast : (pyTitleGo false s.data).getLast?.map pyIsSpace =
      s.data.getLast?.map pyIsSpace := by
    rw [← List.getLast?_map, ← List.getLast?_map, hmap]
  constructor
  · intro c hc
    have hc' : (pyTitleGo false s.data).head? = some c := hc
    rw [hc'] at hhead
    cases ho : s.data.head? with
    | none => rw [ho] at hhead; simp at hhead
    | some a =>
      rw [ho] at hhead
      simp only [Option.map_some'] at hhead
      rw [Option.some.injEq] at hhead
      rw [hhead]
      exact h.1 a ho
  · intro c hc
    have hc' : (pyTitleGo false s.data).getLast? = some c := hc
    rw [hc'] at hlast
    cases ho : s.data.getLast? with
    | none => rw [ho] at hlast; simp at hlast
    | some a =>
      rw [ho] at hlast
      simp only [Option.map_some'] at hlast
      rw [Option.some.injEq] at hlast
      rw [hlast]
      exact h.2 a ho

theorem pyTitle_idem (s : String) : pyTitle (pyTitle s) = pyTitle s := by
  show String.mk (pyTitleGo false (pyTitleGo false s.data)) = String.mk (pyTitleGo false s.data)
  rw [pyTitleGo_idem s.data false]

theorem normalize_unfold (s : String) (hs : s ≠ "") :
    normalize_city_name s =
      (if pyTitle (pyStrip s) = "Sao Paulo" then "São Paulo"
       else if pyTitle (pyStrip s) = "Rio De Janeiro" then "Rio de Janeiro"
       else if pyTitle (pyStrip s) = "Belo Horizonte" then "Belo Horizonte"
       else pyTitle (pyStrip s)) := by
  simp only [normalize_city_name, if_neg hs]

/-- Claim C10: `normalize_city_name` is idempotent and total: applying it
twice equals applying it once, its result never has leading or
trailing whitespace, and the empty (falsy) input yields `""`. -/
theorem normalize_city_name_props (s : String) :
    normalize_city_name (normalize_city_name s) = normalize_city_name s ∧
    no_edge_ws (normalize_city_name s) = true ∧
    normalize_city_name "" = "" := by
  by_cases hs : s = ""
  · subst hs
    exact ⟨rfl, by decide, rfl⟩
  · have hedge : no_edge_ws (pyTitle (pyStrip s)) = true :=
      no_edge_ws_pyTitle _ (no_edge_ws_pyStrip s)
    rw [normalize_unfold s hs]
    by_cases h1 : pyTitle (pyStrip s) = "Sao Paulo"
    · rw [if_pos h1]
      exact ⟨by decide, by decide, rfl⟩
    · rw [if_neg h1]
      by_cases h2 : pyTitle (pyStrip s) = "Rio De Janeiro"
      · rw [if_pos h2]
        exact ⟨by decide, by decide, rfl⟩
      · rw [if_neg h2]
        by_cases h3 : pyTitle (pyStrip s) = "Belo Horizonte"
        · rw [if_pos h3]
          exact ⟨by decide, by decide, rfl⟩
        · rw [if_neg h3]
          refine ⟨?_, hedge, rfl⟩
          by_cases h0 : pyTitle (pyStrip s) = ""
          · rw [h0]
            rfl
          · rw [normalize_unfold _ h0, pyStrip_eq_self _ hedge,
              pyTitle_idem (pyStrip s), if_neg h1, if_neg h2, if_neg h3]

theorem not_none_of_check (d : PyRec) (f : String)
    (h : is_none_v (recGetD d f Val.none_v) = false) :
    ∃ v, recGet? d f = some v ∧ v ≠ Val.none_v := by
  cases ho : recGet? d f with
  | none =>
    rw [recGetD, ho] at h
    simp [is_none_v] at h
  | some v =>
    refine ⟨v, rfl, ?_⟩
    intro hv
    subst hv
    rw [recGetD, ho] at h
    simp [is_none_v] at h

theorem num_of_check (d : PyRec) (f : String) (t : ℚ)
    (hnn : ∃ v, recGet? d f = some v ∧ v ≠ Val.none_v)
    (h : valNumE (recGetD d f (Val.num 0)) = Except.ok t) :
    recGet? d f = some (Val.num t) := by
  obtain ⟨v, hv, _⟩ := hnn
  rw [recGetD, hv] at h
  cases v <;> simp [valNumE] at h
  rw [hv, h]

theorem validate_ok_true (d : PyRec) (h : validate_transformed_data d = Except.ok true) :
    (∃ v, recGet? d "city_name" = some v ∧ v ≠ Val.none_v) ∧
    (∃ v, recGet? d "country_code" = some v ∧ v ≠ Val.none_v) ∧
    (∃ v, recGet? d "pressure" = some v ∧ v ≠ Val.none_v) ∧
    (∃ v, recGet? d "weather_main" = some v ∧ v ≠ Val.none_v) ∧
    (∃ t : ℚ, recGet? d "temperature" = some (Val.num t) ∧ -100 ≤ t ∧ t ≤ 60) ∧
    (∃ q : ℚ, recGet? d "humidity" = some (Val.num q) ∧ 0 ≤ q ∧ q ≤ 100) := by
  unfold validate_transformed_data at h
  split_ifs at h with hc1 hc2 hc3 hc4 hc5 hc6 <;> try simp at h
  rw [Bool.not_eq_true] at hc1 hc2 hc3 hc4 hc5 hc6
  cases hvt : valNumE (recGetD d "temperature" (Val.num 0)) with
  | error e => rw [hvt] at h; simp at h
  | ok t =>
    rw [hvt] at h
    dsimp only at h
    split_ifs at h with hr1 <;> try simp at h
    cases hvh : valNumE (recGetD d "humidity" (Val.num 0)) with
    | error e => rw [hvh] at h; simp at h
    | ok q =>
      rw [hvh] at h
      dsimp only at h
      split_ifs at h with hr2 <;> try simp at h
      push_neg at hr1 hr2
      refine ⟨not_none_of_check d "city_name" hc1, not_none_of_check d "country_code" hc2,
        not_none_of_check d "pressure" hc5, not_none_of_check d "weather_main" hc6,
        ⟨t, num_of_check d "temperature" t (not_none_of_check d "temperature" hc3) hvt,
          ?_, ?_⟩,
        ⟨q, num_of_check d "humidity" q (not_none_of_check d "humidity" hc4) hvh, ?_, ?_⟩⟩ <;>
        tauto

theorem transform_some_validate (tz : ℤ) (now : String) (raw td : PyRec)
    (h : transform_weather_data tz now raw = some td) :
    validate_transformed_data td = Except.ok true := by
  unfold transform_weather_data at h
  split_ifs at h with hc
  cases hb : build_transformed tz now raw with
  | error e => rw [hb] at h; simp at h
  | ok td2 =>
    rw [hb] at h
    dsimp only at h
    cases hv : validate_transformed_data td2 with
    | error e => rw [hv] at h; simp at h
    | ok b =>
      rw [hv] at h
      cases b with
      | false => simp at h
      | true =>
        simp only [Option.some.injEq] at h
        rw [← h]
        exact hv

theorem transform_some_not_empty (tz : ℤ) (now : String) (raw td : PyRec)
    (h : transform_weather_data tz now raw = some td) : td.isEmpty = false := by
  obtain ⟨⟨v, hv, _⟩, _⟩ := validate_ok_true td (transform_some_validate tz now raw td h)
  cases td with
  | nil => simp [recGet?, assocGet?] at hv
  | cons kv rest => rfl

theorem extract_some_not_empty (api : String → Option PyRec) (now city : String)
    (raw : PyRec) (h : extract_weather_data api now city = some raw) :
    raw.isEmpty = false := by
  unfold extract_weather_data at h
  cases ha : api city with
  | none => rw [ha] at h; simp at h
  | some d =>
    rw [ha] at h
    simp at h
    rw [← h]
    exact assocSet_isEmpty d "extracted_at" (Val.str now)

/-- Claim C1 (amended): whenever `transform_weather_data` returns a record,
the six required fields are non-null, the temperature is a number in
[-100, 60] and the humidity a number in [0, 100]; any violation of
these checks — including a payload lacking the "main" section — yields
no record.  (The claim's additional "city_name non-empty" condition is
not checked by the code; see the counterexample.) -/
theorem transform_weather_data_valid (tz : ℤ) (now : String) (raw : PyRec) :
    (recHas raw "main" = false → transform_weather_data tz now raw = none) ∧
    (∀ td, transform_weather_data tz now raw = some td →
      (∃ v, recGet? td "city_name" = some v ∧ v ≠ Val.none_v) ∧
      (∃ v, recGet? td "country_code" = some v ∧ v ≠ Val.none_v) ∧
      (∃ v, recGet? td "pressure" = some v ∧ v ≠ Val.none_v) ∧
      (∃ v, recGet? td "weather_main" = some v ∧ v ≠ Val.none_v) ∧
      (∃ t : ℚ, recGet? td "temperature" = some (Val.num t) ∧ -100 ≤ t ∧ t ≤ 60) ∧
      (∃ q : ℚ, recGet? td "humidity" = some (Val.num q) ∧ 0 ≤ q ∧ q ≤ 100)) := by
  constructor
  · intro hm
    unfold transform_weather_data
    rw [if_pos]
    rw [hm]
    simp
  · intro td h
    exact validate_ok_true td (transform_some_validate tz now raw td h)

/-- Claim C1 counterexample: on a payload whose `name` is the empty string,
the transformer returns a canonical record whose `city_name` is `""` —
the claim's "city_name is non-empty" is not enforced by the code. -/
theorem transform_empty_city_name_accepted :
    (transform_weather_data 0 "NOW" rawEmptyName).isSome = true ∧
    recGet? ((transform_weather_data 0 "NOW" rawEmptyName).getD []) "city_name"
      = some (Val.str "") := ⟨rfl, rfl⟩

/-- Claim C1 witness payload check. -/
theorem transform_weather_data_valid_witness :
    recHas (([] : PyRec)) "main" = false ∧ transform_weather_data 0 "NOW" [] = none ∧
    (transform_weather_data 0 "NOW" sampleRaw).isSome = true ∧
    recGet? ((transform_weather_data 0 "NOW" sampleRaw).getD []) "temperature"
      = some (Val.num (mkRat 255 10)) := by
  refine ⟨rfl, (transform_weather_data_valid 0 "NOW" []).1 rfl, rfl, rfl⟩

theorem run_etl_for_city_fst (env : Env) (st : Stats) (city : String) :
    (run_etl_for_city env st city).1 = city_succeeds env city := by
  unfold run_etl_for_city city_succeeds
  cases hex : extract_weather_data env.api env.nowIso city with
  | none => rfl
  | some raw =>
    by_cases hr : raw.isEmpty = true
    · simp [hr]
    · rw [Bool.not_eq_true] at hr
      simp only [hr]
      cases htr : transform_weather_data env.tz env.nowIso raw with
      | none => rfl
      | some td =>
        by_cases htd : td.isEmpty = true
        · simp [htd]
        · rw [Bool.not_eq_true] at htd
          simp only [htd]
          cases hld : load_weather_data env.db (add_derived_fields td) <;> simp [hld]

theorem run_etl_for_city_last_success (env : Env) (st : Stats) (city : String) :
    (run_etl_for_city env st city).2.last_success = st.last_success ∧
    (run_etl_for_city env st city).2.last_run = st.last_run ∧
    (run_etl_for_city env st city).2.total_runs = st.total_runs := by
  unfold run_etl_for_city
  cases hex : extract_weather_data env.api env.nowIso city with
  | none => exact ⟨rfl, rfl, rfl⟩
  | some raw =>
    by_cases hr : raw.isEmpty = true
    · simp [hr]
    · rw [Bool.not_eq_true] at hr
      simp only [hr]
      cases htr : transform_weather_data env.tz env.nowIso raw with
      | none => exact ⟨rfl, rfl, rfl⟩
      | some td =>
        by_cases htd : td.isEmpty = true
        · simp [htd]
        · rw [Bool.not_eq_true] at htd
          simp only [htd]
          cases hld : load_weather_data env.db (add_derived_fields td) <;> simp [hld]

/-- Claim C3 (amended): per-city counter behaviour of `run_etl_for_city`.
Extraction failure increments only the failed-extraction counter; a
successful extraction immediately increments the successful-extraction
counter, even when transformation or loading later fails (this is
where the original claim diverges from the code); a transformation
failure changes nothing further; a load failure adds a failed-load
count; full success adds a successful-load count.  The explicit
structure updates show no other counter changes. -/
theorem run_etl_for_city_counters (env : Env) (st : Stats) (city : String) :
    (extract_weather_data env.api env.nowIso city = none →
      run_etl_for_city env st city =
        (false, { st with failed_extractions := st.failed_extractions + 1 })) ∧
    (∀ raw, extract_weather_data env.api env.nowIso city = some raw →
      transform_weather_data env.tz env.nowIso raw = none →
      run_etl_for_city env st city =
        (false, { st with successful_extractions := st.successful_extractions + 1 })) ∧
    (∀ raw td, extract_weather_data env.api env.nowIso city = some raw →
      transform_weather_data env.tz env.nowIso raw = some td →
      load_weather_data env.db (add_derived_fields td) = false →
      run_etl_for_city env st city =
        (false, { st with successful_extractions := st.successful_extractions + 1,
                          failed_loads := st.failed_loads + 1 })) ∧
    (∀ raw td, extract_weather_data env.api env.nowIso city = some raw →
      transform_weather_data env.tz env.nowIso raw = some td →
      load_weather_data env.db (add_derived_fields td) = true →
      run_etl_for_city env st city =
        (true, { st with successful_extractions := st.successful_extractions + 1,
                         successful_loads := st.successful_loads + 1 })) := by
  refine ⟨?_, ?_, ?_, ?_⟩
  · intro hex
    unfold run_etl_for_city
    rw [hex]
  · intro raw hex htr
    unfold run_etl_for_city
    rw [hex]
    simp only [extract_some_not_empty env.api env.nowIso city raw hex, htr]
    rfl
  · intro raw td hex htr hld
    unfold run_etl_for_city
    rw [hex]
    simp only [extract_some_not_empty env.api env.nowIso city raw hex, htr,
      transform_some_not_empty env.tz env.nowIso raw td htr, hld]
    rfl
  · intro raw td hex htr hld
    unfold run_etl_for_city
    rw [hex]
    simp only [extract_some_not_empty env.api env.nowIso city raw hex, htr,
      transform_some_not_empty env.tz env.nowIso raw td htr, hld]
    rfl

theorem recGet?_recSet (r : PyRec) (k k2 : String) (v : Val) :
    recGet? (recSet r k v) k2 = if k = k2 then some v else recGet? r k2 :=
  assocGet?_assocSet r k k2 v

/-- Claim C4: the heat-index field.  When temperature and humidity are both
numeric and non-zero (truthy), enrichment writes
`round(temp + 0.5*(humidity-50), 2)`; when either reads as zero (which
includes the absent case, via the `.get(…, 0)` default), the
heat-index key is left exactly as it was in the input — the
zero-is-absent quirk. -/
theorem add_derived_fields_heat_index (d : PyRec) (t q : ℚ)
    (ht : recGetD d "temperature" (Val.num 0) = Val.num t)
    (hq : recGetD d "humidity" (Val.num 0) = Val.num q) :
    (t ≠ 0 → q ≠ 0 →
      recGet? (add_derived_fields d) "heat_index"
        = some (Val.num (pyRound2 (t + mkRat 1 2 * (q - 50))))) ∧
    ((t = 0 ∨ q = 0) →
      recGet? (add_derived_fields d) "heat_index" = recGet? d "heat_index") := by
  have htc : ∀ X : PyRec, temperature_category_step (Val.num t) X =
      Except.ok (recSet X "temperature_category" (Val.str
        (if t < 10 then "Frio" else if t ≤ 25 then "Ameno"
         else if t ≤ 35 then "Quente" else "Muito Quente"))) := fun X => rfl
  have hhc : ∀ X : PyRec, humidity_category_step (Val.num q) X =
      Except.ok (recSet X "humidity_category" (Val.str
        (if q ≤ 30 then "Baixa" else if q < 60 then "Moderada" else "Alta"))) :=
    fun X => rfl
  constructor
  · intro ht0 hq0
    have hh : heat_index_step (Val.num t) (Val.num q) d =
        Except.ok (recSet d "heat_index"
          (Val.num (pyRound2 (t + mkRat 1 2 * (q - 50))))) := by
      unfold heat_index_step
      rw [if_pos (by simp [pyTruthy, ht0, hq0])]
      rfl
    unfold add_derived_fields
    dsimp only
    rw [ht, hq, hh]
    dsimp only
    rw [htc _]
    dsimp only
    rw [hhc _]
    dsimp only
    rw [recGet?_recSet, if_neg (by decide), recGet?_recSet, if_neg (by decide),
      recGet?_recSet, if_pos rfl]
  · intro h0
    have hh : heat_index_step (Val.num t) (Val.num q) d = Except.ok d := by
      have hcnd : ¬ ((pyTruthy (Val.num t) && pyTruthy (Val.num q)) = true) := by
        simp only [pyTruthy, Bool.and_eq_true, decide_eq_true_eq, ne_eq]
        rcases h0 with h0 | h0 <;> simp [h0]
      unfold heat_index_step
      rw [if_neg hcnd]
    unfold add_derived_fields
    dsimp only
    rw [ht, hq, hh]
    dsimp only
    rw [htc _]
    dsimp only
    rw [hhc _]
    dsimp only
    rw [recGet?_recSet, if_neg (by decide), recGet?_recSet, if_neg (by decide)]

/-- Claim C4 witness input: the sample record's measurements. -/
theorem add_derived_fields_heat_index_witness :
    recGet? (add_derived_fields
        [("temperature", Val.num (mkRat 255 10)), ("humidity", Val.num 65)]) "heat_index"
      = some (Val.num (pyRound2 (mkRat 255 10 + mkRat 1 2 * (65 - 50)))) ∧
    pyRound2 (mkRat 255 10 + mkRat 1 2 * (65 - 50)) = 33 ∧
    recGet? (add_derived_fields
        [("temperature", Val.num 0), ("humidity", Val.num 65)]) "heat_index" = none := by
  refine ⟨(add_derived_fields_heat_index
      [("temperature", Val.num (mkRat 255 10)), ("humidity", Val.num 65)]
      (mkRat 255 10) 65 rfl rfl).1 (by decide) (by decide), by decide, ?_⟩
  have h := (add_derived_fields_heat_index
      [("temperature", Val.num 0), ("humidity", Val.num 65)] 0 65 rfl rfl).2
    (Or.inl rfl)
  rw [h]
  rfl

theorem temperature_category_label_eq (t : ℚ) :
    (if t < 10 then "Frio" else if t ≤ 25 then "Ameno"
     else if t ≤ 35 then "Quente" else "Muito Quente")
      = temperature_category_label (spec_temperature_category t) := by
  unfold spec_temperature_category temperature_category_label
  split_ifs <;> rfl

/-- Claim C5: for every record whose temperature is a number (and whose
humidity is a number or null), enrichment stores the label of the
spec's category for that temperature: Cold below 10, Mild on [10,25],
Hot on (25,35], VeryHot above 35 — so t=10 and t=25 are Mild and t=35
is Hot. -/
theorem add_derived_fields_temperature_category (d : PyRec) (t : ℚ)
    (ht : recGetD d "temperature" (Val.num 0) = Val.num t)
    (hq : is_num_or_none (recGetD d "humidity" (Val.num 0)) = true) :
    recGet? (add_derived_fields d) "temperature_category"
      = some (Val.str (temperature_category_label (spec_temperature_category t))) := by
  have htc : ∀ X : PyRec, temperature_category_step (Val.num t) X =
      Except.ok (recSet X "temperature_category" (Val.str
        (if t < 10 then "Frio" else if t ≤ 25 then "Ameno"
         else if t ≤ 35 then "Quente" else "Muito Quente"))) := fun X => rfl
  cases hqv : recGetD d "humidity" (Val.num 0) with
  | num q =>
    obtain ⟨S, hS⟩ : ∃ S, heat_index_step (Val.num t) (Val.num q) d = Except.ok S := by
      unfold heat_index_step
      by_cases hb : (pyTruthy (Val.num t) && pyTruthy (Val.num q)) = true
      · rw [if_pos hb]
        exact ⟨_, rfl⟩
      · rw [if_neg hb]
        exact ⟨_, rfl⟩
    have hhc : ∀ X : PyRec, humidity_category_step (Val.num q) X =
        Except.ok (recSet X "humidity_category" (Val.str
          (if q ≤ 30 then "Baixa" else if q < 60 then "Moderada" else "Alta"))) :=
      fun X => rfl
    unfold add_derived_fields
    dsimp only
    rw [ht, hqv, hS]
    dsimp only
    rw [htc _]
    dsimp only
    rw [hhc _]
    dsimp only
    rw [recGet?_recSet, if_neg (by decide), recGet?_recSet, if_pos rfl,
      temperature_category_label_eq]
  | none_v =>
    have hh : heat_index_step (Val.num t) Val.none_v d = Except.ok d := by
      unfold heat_index_step
      rw [if_neg (by simp [pyTruthy])]
    have hhc : ∀ X : PyRec, humidity_category_step Val.none_v X = Except.ok X :=
      fun X => rfl
    unfold add_derived_fields
    dsimp only
    rw [ht, hqv, hh]
    dsimp only
    rw [htc _]
    dsimp only
    rw [hhc _]
    dsimp only
    rw [recGet?_recSet, if_pos rfl, temperature_category_label_eq]
  | str v => rw [hqv] at hq; simp [is_num_or_none] at hq
  | dict v => rw [hqv] at hq; simp [is_num_or_none] at hq
  | list v => rw [hqv] at hq; simp [is_num_or_none] at hq

/-- Claim C5 witness: the boundary temperatures 10, 25, 35. -/
theorem add_derived_fields_temperature_category_witness :
    recGet? (add_derived_fields [("temperature", Val.num 10)]) "temperature_category"
      = some (Val.str (temperature_category_label (spec_temperature_category 10))) ∧
    spec_temperature_category 10 = SpecTempCategory.Mild ∧
    spec_temperature_category 25 = SpecTempCategory.Mild ∧
    spec_temperature_category 35 = SpecTempCategory.Hot ∧
    temperature_category_label SpecTempCategory.Mild = "Ameno" := by
  refine ⟨?_, by decide, by decide, by decide, rfl⟩
  exact add_derived_fields_temperature_category [("temperature", Val.num 10)] 10 rfl rfl

theorem enrich_frame_set (d S : PyRec) (key : String) (v : Val)
    (hkey : key = "heat_index" ∨ key = "temperature_category" ∨ key = "humidity_category")
    (hS : enrich_frame_ok d S) : enrich_frame_ok d (recSet S key v) := by
  constructor
  · intro k h1 h2 h3
    rw [recGet?_recSet, if_neg, hS.1 k h1 h2 h3]
    intro he
    rcases hkey with hk | hk | hk
    exacts [h1 (he.symm.trans hk), h2 (he.symm.trans hk), h3 (he.symm.trans hk)]
  · intro k hk
    rw [recGet?_recSet]
    by_cases he : key = k
    · simp [he]
    · rw [if_neg he]
      exact hS.2 k hk

theorem heat_index_step_shape (temp hum : Val) (data : PyRec) :
    heat_index_step temp hum data = Except.error data ∨
    heat_index_step temp hum data = Except.ok data ∨
    ∃ v, heat_index_step temp hum data = Except.ok (recSet data "heat_index" v) := by
  unfold heat_index_step
  by_cases hb : (pyTruthy temp && pyTruthy hum) = true
  · rw [if_pos hb]
    cases h1 : valNumE temp with
    | error e =>
      left
      cases h2 : valNumE hum <;> rfl
    | ok t =>
      cases h2 : valNumE hum with
      | error e => left; rfl
      | ok q => right; right; exact ⟨_, rfl⟩
  · rw [if_neg hb]
    exact Or.inr (Or.inl rfl)

theorem temperature_category_step_shape (temp : Val) (data : PyRec) :
    temperature_category_step temp data = Except.error data ∨
    temperature_category_step temp data = Except.ok data ∨
    ∃ v, temperature_category_step temp data
      = Except.ok (recSet data "temperature_category" v) := by
  unfold temperature_category_step
  by_cases hn : is_none_v temp = true
  · rw [if_pos hn]
    exact Or.inr (Or.inl rfl)
  · rw [if_neg hn]
    cases h1 : valNumE temp with
    | error e => left; rfl
    | ok t => right; right; exact ⟨_, rfl⟩

theorem humidity_category_step_shape (hum : Val) (data : PyRec) :
    humidity_category_step hum data = Except.error data ∨
    humidity_category_step hum data = Except.ok data ∨
    ∃ v, humidity_category_step hum data
      = Except.ok (recSet data "humidity_category" v) := by
  unfold humidity_category_step
  by_cases hn : is_none_v hum = true
  · rw [if_pos hn]
    exact Or.inr (Or.inl rfl)
  · rw [if_neg hn]
    cases h1 : valNumE hum with
    | error e => left; rfl
    | ok t => right; right; exact ⟨_, rfl⟩

theorem add_derived_fields_frame_ok (d : PyRec) :
    enrich_frame_ok d (add_derived_fields d) := by
  have hFd : enrich_frame_ok d d := ⟨fun k _ _ _ => rfl, fun k h => h⟩
  have hum_last : ∀ (S : PyRec), enrich_frame_ok d S → ∀ hum : Val,
      enrich_frame_ok d
        (match humidity_category_step hum S with
         | Except.error x => x
         | Except.ok x => x) := by
    intro S hS hum
    rcases humidity_category_step_shape hum S with h | h | ⟨v, h⟩ <;> rw [h]
    · exact hS
    · exact hS
    · exact enrich_frame_set d S _ v (Or.inr (Or.inr rfl)) hS
  have tc_then : ∀ (S : PyRec), enrich_frame_ok d S → ∀ temp hum : Val,
      enrich_frame_ok d
        (match temperature_category_step temp S with
         | Except.error x => x
         | Except.ok d2 =>
           match humidity_category_step hum d2 with
           | Except.error x => x
           | Except.ok x => x) := by
    intro S hS temp hum
    rcases temperature_category_step_shape temp S with h | h | ⟨v, h⟩ <;> rw [h]
    · exact hS
    · exact hum_last S hS hum
    · exact hum_last _ (enrich_frame_set d S _ v (Or.inr (Or.inl rfl)) hS) hum
  unfold add_derived_fields
  dsimp only
  rcases heat_index_step_shape (recGetD d "temperature" (Val.num 0))
      (recGetD d "humidity" (Val.num 0)) d with h | h | ⟨v, h⟩ <;> rw [h]
  · exact hFd
  · exact tc_then d hFd _ _
  · exact tc_then _ (enrich_frame_set d d _ v (Or.inl rfl) hFd) _ _

/-- Claim C9 (amended): enrichment is total (never raises) and never removes
a field or changes the value of any field other than the three derived
ones (`heat_index`, `temperature_category`, `humidity_category`), which
may be added or overwritten; on an internal error the record is
returned with the mutations applied before the error, its non-derived
fields still untouched. -/
theorem add_derived_fields_frame (d : PyRec) :
    (∀ k, k ≠ "heat_index" → k ≠ "temperature_category" → k ≠ "humidity_category" →
      recGet? (add_derived_fields d) k = recGet? d k) ∧
    (∀ k, (recGet? d k).isSome = true →
      (recGet? (add_derived_fields d) k).isSome = true) :=
  ⟨(add_derived_fields_frame_ok d).1, (add_derived_fields_frame_ok d).2⟩

/-- Claim C9 counterexample: (1) enrichment overwrites an already-present
`heat_index` (999 becomes 35), so a field present in the input is
changed; (2) on `dErr` the humidity comparison raises internally, yet
the returned record is not the unmodified input: the temperature
category written before the error is kept. -/
theorem add_derived_fields_not_pure_addition :
    recGet? dOver "heat_index" = some (Val.num 999) ∧
    recGet? (add_derived_fields dOver) "heat_index" = some (Val.num 35) ∧
    humidity_category_step (Val.str "wet")
        (recSet dErr "temperature_category" (Val.str "Frio"))
      = Except.error (recSet dErr "temperature_category" (Val.str "Frio")) ∧
    add_derived_fields dErr = dErr ++ [("temperature_category", Val.str "Frio")] :=
  ⟨rfl, rfl, rfl, rfl⟩

/-- Claim C9 witness: a concrete non-derived field is untouched. -/
theorem add_derived_fields_frame_witness :
    recGet? (add_derived_fields [("city_name", Val.str "X"), ("temperature", Val.num 5)])
        "city_name"
      = recGet? [("city_name", Val.str "X"), ("temperature", Val.num 5)] "city_name" ∧
    recGet? [("city_name", Val.str "X"), ("temperature", Val.num 5)] "city_name"
      = some (Val.str "X") :=
  ⟨(add_derived_fields_frame [("city_name", Val.str "X"), ("temperature", Val.num 5)]).1
      "city_name" (by decide) (by decide) (by decide), rfl⟩

/-- Claim C7: the mapping returned by `extract_multiple_cities` holds exactly
the cities whose extraction succeeded, each with its raw observation;
failed cities are omitted and do not disturb the others, and the
function is total (no exception crosses the extractor boundary). -/
theorem extract_multiple_cities_spec (api : String → Option PyRec) (now : String)
    (cities : List String) (c : String) :
    assocGet? (extract_multiple_cities api now cities) c =
      (if c ∈ cities then extract_weather_data api now c else none) := by
  have hgo : ∀ (cs : List String) (res : List (String × PyRec)),
      assocGet? (cs.foldl (fun results city =>
        match extract_weather_data api now city with
        | some data => if data.isEmpty then results else assocSet results city data
        | none => results) res) c =
      (if c ∈ cs then
        (match extract_weather_data api now c with
         | some data => some data
         | none => assocGet? res c)
       else assocGet? res c) := by
    intro cs
    induction cs with
    | nil => intro res; simp
    | cons city rest ih =>
      intro res
      rw [List.foldl_cons, ih]
      by_cases hc : c = city
      · subst hc
        cases hex : extract_weather_data api now c with
        | none => simp [List.mem_cons]
        | some data =>
          have hne : data.isEmpty = false := extract_some_not_empty api now c data hex
          simp [List.mem_cons, hne, assocGet?_assocSet]
      · have hstep : assocGet? (match extract_weather_data api now city with
            | some data => if data.isEmpty then res else assocSet res city data
            | none => res) c = assocGet? res c := by
          cases hex : extract_weather_data api now city with
          | none => rfl
          | some data =>
            dsimp only
            by_cases hd : data.isEmpty = true
            · rw [if_pos hd]
            · rw [Bool.not_eq_true] at hd
              simp only [hd, Bool.false_eq_true, if_false]
              rw [assocGet?_assocSet, if_neg (fun h => hc h.symm)]
        rw [hstep]
        simp only [List.mem_cons]
        by_cases hr : c ∈ rest
        · simp [hr]
        · simp [hr, hc]
  unfold extract_multiple_cities
  rw [hgo cities []]
  by_cases hc : c ∈ cities
  · rw [if_pos hc, if_pos hc]
    cases hex : extract_weather_data api now c <;> simp [assocGet?]
  · rw [if_neg hc, if_neg hc]
    rfl

theorem assocGet?_map_pv (data : PyRec) (f : String) :
    assocGet? (data.map (fun kv => (kv.1, PVal.v kv.2))) f
      = (recGet? data f).map PVal.v := by
  induction data with
  | nil => rfl
  | cons kv rest ih =>
    by_cases h : kv.1 = f <;> simp [assocGet?, recGet?, h, ih]

theorem prep_fold_not_mem (fs : List String) :
    ∀ (pd : List (String × PVal)) (f : String), f ∉ fs →
    assocGet? (fs.foldl (fun pd f =>
      match assocGet? pd f with
      | none => pd
      | some pv =>
        assocSet pd f
          (match pv with
           | PVal.v v =>
             match parse_timestamp v with
             | some t => PVal.dt t
             | none => PVal.v Val.none_v
           | PVal.dt _ => PVal.v Val.none_v)) pd) f = assocGet? pd f := by
  induction fs with
  | nil => intro pd f _; rfl
  | cons g rest ih =>
    intro pd f hf
    have hf1 : f ≠ g := fun he => hf (he ▸ List.mem_cons_self g rest)
    have hf2 : f ∉ rest := fun hr => hf (List.mem_cons_of_mem _ hr)
    rw [List.foldl_cons, ih _ f hf2]
    cases hg : assocGet? pd g with
    | none => rfl
    | some pv =>
      dsimp only
      rw [assocGet?_assocSet, if_neg (fun h => hf1 h.symm)]

theorem prep_fold_mem (fs : List String) :
    ∀ (pd : List (String × PVal)) (f : String), fs.Nodup → f ∈ fs →
    assocGet? (fs.foldl (fun pd f =>
      match assocGet? pd f with
      | none => pd
      | some pv =>
        assocSet pd f
          (match pv with
           | PVal.v v =>
             match parse_timestamp v with
             | some t => PVal.dt t
             | none => PVal.v Val.none_v
           | PVal.dt _ => PVal.v Val.none_v)) pd) f
      = (assocGet? pd f).map (fun pv =>
          match pv with
          | PVal.v v =>
            match parse_timestamp v with
            | some t => PVal.dt t
            | none => PVal.v Val.none_v
          | PVal.dt _ => PVal.v Val.none_v) := by
  induction fs with
  | nil => intro pd f _ hf; simp at hf
  | cons g rest ih =>
    intro pd f hnd hf
    have hgrest : g ∉ rest := (List.nodup_cons.mp hnd).1
    have hndr : rest.Nodup := (List.nodup_cons.mp hnd).2
    rcases List.mem_cons.mp hf with he | hr
    · subst he
      rw [List.foldl_cons, prep_fold_not_mem rest _ f hgrest]
      cases hg : assocGet? pd f with
      | none =>
        dsimp only
        rw [hg]
        rfl
      | some pv =>
        dsimp only
        rw [assocGet?_assocSet, if_pos rfl]
        rfl
    · have hfg : f ≠ g := fun he => hgrest (he ▸ hr)
      rw [List.foldl_cons, ih _ f hndr hr]
      cases hg : assocGet? pd g with
      | none => rfl
      | some pv =>
        dsimp only
        rw [assocGet?_assocSet, if_neg (fun h => hfg h.symm)]

/-- Claim C8: `load_multiple_records` attempts every record sequentially and
returns exactly the number of records whose insert succeeded (one bad
record cannot abort the batch, and `load_weather_data` is a total
Bool); and the insert preparation coerces each timestamp field to the
parsed datetime or to null when the string is unparseable, instead of
failing. -/
theorem load_multiple_records_spec :
    (∀ (db : List (String × PVal) → Bool) (l : List PyRec),
      load_multiple_records db l = l.countP (fun data => load_weather_data db data)) ∧
    (∀ (data : PyRec) (f : String), f ∈ timestamp_fields →
      assocGet? (prepare_data_for_insert data) f =
        (recGet? data f).map (fun v =>
          match parse_timestamp v with
          | some t => PVal.dt t
          | none => PVal.v Val.none_v)) := by
  constructor
  · intro db l
    unfold load_multiple_records
    rw [foldl_count_if, Nat.zero_add]
  · intro data f hf
    unfold prepare_data_for_insert
    rw [prep_fold_mem timestamp_fields _ f (by decide) hf, assocGet?_map_pv,
      Option.map_map]
    rfl

/-- Claim C8 witness: a successful batch of one, an unparseable timestamp
coerced to null, and a parseable one converted. -/
theorem load_multiple_records_spec_witness :
    load_multiple_records (fun _ => true) [dOver] = 1 ∧
    assocGet? (prepare_data_for_insert [("sunrise", Val.str "not-a-date")]) "sunrise"
      = some (PVal.v Val.none_v) ∧
    assocGet? (prepare_data_for_insert [("sunrise", Val.str "2024-01-01T12:00:00")])
        "sunrise"
      = some (PVal.dt ⟨2024, 1, 1, 12, 0, 0, 0, none⟩) := by
  refine ⟨?_, ?_, ?_⟩
  · rw [load_multiple_records_spec.1 (fun _ => true) [dOver]]
    rfl
  · rw [load_multiple_records_spec.2 [("sunrise", Val.str "not-a-date")] "sunrise"
      (by decide)]
    rfl
  · rw [load_multiple_records_spec.2 [("sunrise", Val.str "2024-01-01T12:00:00")]
      "sunrise" (by decide)]
    rfl

/-- Claim C6 at the failing input (code_bug): the observation timestamp is
rendered by naive `datetime.fromtimestamp` in the process-local
timezone.  In a UTC-3 environment (e.g. America/Sao_Paulo,
tz = -10800 s) epoch 1640995200 becomes "2021-12-31T21:00:00", not the
ISO-8601 UTC instant "2022-01-01T00:00:00" the spec requires.  The
null-on-zero-or-absent behaviour for sunrise/sunset does hold. -/
theorem transform_timestamp_local_not_utc :
    recGet? ((transform_weather_data (-10800) "NOW" sampleRaw).getD []) "data_timestamp"
      = some (Val.str (fromtimestamp_isoformat (-10800) 1640995200)) ∧
    fromtimestamp_isoformat (-10800) 1640995200 = "2021-12-31T21:00:00" ∧
    fromtimestamp_isoformat 0 1640995200 = "2022-01-01T00:00:00" ∧
    fromtimestamp_utc_isoformat 1640995200 = "2022-01-01T00:00:00+00:00" ∧
    (fromtimestamp_isoformat (-10800) 1640995200 == fromtimestamp_isoformat 0 1640995200)
      = false ∧
    recGet? ((transform_weather_data 0 "NOW" rawZeroSun).getD []) "sunrise"
      = some Val.none_v ∧
    recGet? ((transform_weather_data 0 "NOW" rawZeroSun).getD []) "sunset"
      = some Val.none_v :=
  ⟨rfl, by decide, by decide, by decide, by decide, rfl, rfl⟩

/-- Claim C3 counterexample: with `envNoMain` the extraction succeeds and the
transformation fails, yet the successful-extraction counter changed —
refuting "increments no counter when transformation fails" (and
"increments both success counters exactly on full success"). -/
theorem run_etl_transform_failure_changes_counter :
    transform_weather_data 0 "T" (recSet [("cod", Val.num 401)] "extracted_at" (Val.str "T"))
      = none ∧
    (run_etl_for_city envNoMain zeroStats "X").1 = false ∧
    (run_etl_for_city envNoMain zeroStats "X").2.successful_extractions = 1 :=
  ⟨rfl, rfl, rfl⟩

/-- Claim C3 witness: a concrete failing extraction increments exactly the
failed-extraction counter. -/
theorem run_etl_for_city_counters_witness :
    run_etl_for_city testEnv zeroStats "Atlantis" =
      (false, { zeroStats with failed_extractions := zeroStats.failed_extractions + 1 }) :=
  (run_etl_for_city_counters testEnv zeroStats "Atlantis").1 rfl

theorem etl_loop_spec (env : Env) (cities : List String) :
    ∀ (st : Stats) (res : List (String × CityOutcome)) (n : ℕ),
    cities.Nodup → (∀ c ∈ cities, assocGet? res c = none) →
    (etl_loop env cities st res n).2.2 = n + cities.countP (city_succeeds env) ∧
    (etl_loop env cities st res n).2.1.map Prod.fst = res.map Prod.fst ++ cities ∧
    (∀ c ∈ cities, assocGet? (etl_loop env cities st res n).2.1 c =
      some ⟨city_succeeds env c, env.nowIso⟩) ∧
    (∀ c, c ∉ cities → assocGet? (etl_loop env cities st res n).2.1 c = assocGet? res c) ∧
    (etl_loop env cities st res n).1.last_success = st.last_success := by
  induction cities with
  | nil =>
    intro st res n _ _
    exact ⟨by simp [etl_loop], by simp [etl_loop], by simp, fun c _ => rfl, rfl⟩
  | cons city rest ih =>
    intro st res n hnd hres
    have hnd2 : rest.Nodup := (List.nodup_cons.mp hnd).2
    have hcity : city ∉ rest := (List.nodup_cons.mp hnd).1
    have hstep : etl_loop env (city :: rest) st res n =
        etl_loop env rest (run_etl_for_city env st city).2
          (assocSet res city ⟨(run_etl_for_city env st city).1, env.nowIso⟩)
          (if (run_etl_for_city env st city).1 then n + 1 else n) := rfl
    have hres2 : ∀ c ∈ rest, assocGet? (assocSet res city
        ⟨(run_etl_for_city env st city).1, env.nowIso⟩) c = none := by
      intro c hc
      have hne : ¬ (city = c) := by
        intro he
        subst he
        exact hcity hc
      rw [assocGet?_assocSet, if_neg hne]
      exact hres c (List.mem_cons_of_mem _ hc)
    obtain ⟨h1, h2, h3, h5, h4⟩ := ih (run_etl_for_city env st city).2
      (assocSet res city ⟨(run_etl_for_city env st city).1, env.nowIso⟩)
      (if (run_etl_for_city env st city).1 then n + 1 else n) hnd2 hres2
    refine ⟨?_, ?_, ?_, ?_, ?_⟩
    · rw [hstep, h1, List.countP_cons]
      rw [run_etl_for_city_fst env st city]
      by_cases hcs : city_succeeds env city = true <;> simp [hcs] <;> omega
    · rw [hstep, h2, assocSet_of_get_none res city _ (hres city (List.mem_cons_self city rest))]
      simp
    · intro c hc
      rcases List.mem_cons.mp hc with hceq | hcr
      · subst hceq
        rw [hstep, h5 c hcity, assocGet?_assocSet, if_pos rfl,
          run_etl_for_city_fst env st c]
      · rw [hstep]
        exact h3 c hcr
    · intro c hc
      have hc1 : c ≠ city := fun he => hc (he ▸ List.mem_cons_self city rest)
      have hc2 : c ∉ rest := fun hr => hc (List.mem_cons_of_mem _ hr)
      rw [hstep, h5 c hc2, assocGet?_assocSet, if_neg (fun he => hc1 he.symm)]
    · rw [hstep, h4, (run_etl_for_city_last_success env st city).1]

/-- Claim C2 (amended): for a duplicate-free city list, when the store
connection is available (already connected or `setup_database`
succeeds), the run report's success flag is true iff at least one city
succeeded, `successful_cities` counts the successful cities,
`total_cities` is the length of the list, the per-city outcome map has
exactly one entry per city carrying that city's success, and
`last_success` is updated exactly when at least one city succeeded. -/
theorem run_full_etl_report (env : Env) (connected : Bool) (st0 : Stats)
    (cities : List String)
    (hconn : (connected || setup_database env) = true) (hnd : cities.Nodup) :
    (run_full_etl env connected st0 cities).1.success
        = decide (0 < cities.countP (city_succeeds env)) ∧
    (run_full_etl env connected st0 cities).1.successful_cities
        = some (cities.countP (city_succeeds env)) ∧
    (run_full_etl env connected st0 cities).1.total_cities = some cities.length ∧
    (∃ m, (run_full_etl env connected st0 cities).1.city_results = some m ∧
      m.map Prod.fst = cities ∧
      (∀ c ∈ cities, assocGet? m c = some ⟨city_succeeds env c, env.nowIso⟩)) ∧
    (run_full_etl env connected st0 cities).1.statistics.last_success
        = (if 0 < cities.countP (city_succeeds env) then some env.nowIso
           else st0.last_success) := by
  have hcond : (!connected && !setup_database env) = false := by
    cases connected <;> cases hsd : setup_database env <;> simp_all
  obtain ⟨h1, h2, h3, _, h4⟩ := etl_loop_spec env cities
    { st0 with total_runs := st0.total_runs + 1, last_run := some env.nowIso } [] 0 hnd
    (fun c _ => rfl)
  set st1 : Stats :=
    { st0 with total_runs := st0.total_runs + 1, last_run := some env.nowIso } with hst1
  set L := etl_loop env cities st1 [] 0 with hL
  set st3 : Stats :=
    (if 0 < L.2.2 then { L.1 with last_success := some env.nowIso } else L.1) with hst3
  have hreport : run_full_etl env connected st0 cities =
      ({ execution_id := "etl_" ++ toString env.nowEpoch
         start_time := env.nowIso
         end_time := env.nowIso
         duration_seconds := 0
         success := decide (0 < L.2.2)
         statistics := st3
         city_results := some L.2.1
         successful_cities := some L.2.2
         total_cities := some cities.length }, true, st3) := by
    unfold run_full_etl
    simp only [hcond, Bool.false_eq_true, if_false]
    rfl
  rw [hreport]
  refine ⟨?_, ?_, rfl, ⟨L.2.1, rfl, ?_, h3⟩, ?_⟩
  · rw [show L.2.2 = 0 + cities.countP (city_succeeds env) from h1]
    simp
  · rw [show L.2.2 = 0 + cities.countP (city_succeeds env) from h1]
    simp
  · rw [h2]
    simp
  · show st3.last_success = _
    rw [hst3, show L.2.2 = 0 + cities.countP (city_succeeds env) from h1]
    simp only [Nat.zero_add]
    by_cases hpos : 0 < cities.countP (city_succeeds env)
    · rw [if_pos hpos, if_pos hpos]
    · rw [if_neg hpos, if_neg hpos]
      rw [show L.1.last_success = st1.last_success from h4]

/-- Claim C2 counterexample: with a duplicated city list the iteration
counter counts two successes but the per-city outcome dict collapses to
a single entry marked successful, so `successful_cities` (2) is not the
number of outcomes marked `success=true` (1). -/
theorem run_full_etl_duplicate_counterexample :
    (run_full_etl testEnv true zeroStats ["São Paulo", "São Paulo"]).1.successful_cities
      = some 2 ∧
    (((run_full_etl testEnv true zeroStats
        ["São Paulo", "São Paulo"]).1.city_results.getD []).countP
      (fun e => e.2.success)) = 1 := ⟨rfl, rfl⟩

/-- Claim C2 witness: the spec's own two-city scenario — "São Paulo"
succeeds, "Atlantis" fails extraction (404). -/
theorem run_full_etl_report_witness :
    (run_full_etl testEnv true zeroStats ["São Paulo", "Atlantis"]).1.successful_cities
      = some (["São Paulo", "Atlantis"].countP (city_succeeds testEnv)) ∧
    ["São Paulo", "Atlantis"].countP (city_succeeds testEnv) = 1 ∧
    (run_full_etl testEnv true zeroStats ["São Paulo", "Atlantis"]).1.total_cities
      = some 2 := by
  have h := run_full_etl_report testEnv true zeroStats ["São Paulo", "Atlantis"] rfl
    (by decide)
  exact ⟨h.2.1, rfl, h.2.2.1⟩

end WeatherEtl
